import Mathlib

/-!
Verification of the playback-queue / view-navigation state machine of the
`danavi` terminal Subsonic client (src/main.rs, src/tui.rs, src/audio.rs,
src/types.rs), as a shallow embedding in Lean 4.

External collaborators (HTTP client, JSON decoding, the rodio audio device,
the zbus MPRIS bus, terminal rendering) are modelled by their observable
effects on the session state; the outcome of a fallible play attempt
(stream fetch, HTTP status, body read, audio decode) is passed in as an
explicit `PlayOutcome` parameter, and the data returned by a load/search
call is passed in as an explicit response value, mirroring the contracts
in spec section 6.
-/

namespace Danavi

/-- `types.rs` `Song`: identifier plus display metadata. -/
structure Song where
  id : String
  title : String
  album_id : Option String
  artist : Option String
  album : Option String
  duration : Option Int
deriving Repr, DecidableEq

/-- `types.rs` `Artist`. -/
structure Artist where
  id : String
  name : String
deriving Repr, DecidableEq

/-- `types.rs` `Album`. -/
structure Album where
  id : String
  name : String
  artist_id : Option String
deriving Repr, DecidableEq

/-- `types.rs` `SearchResultItem`: a search hit, either an album or a song. -/
inductive SearchResultItem where
  | albumHit (id : String) (name : String) (artist : String) (artist_id : String)
  | songHit (id : String) (title : String) (artist : String) (album_id : String)
      (album : Option String) (duration : Option Int)
deriving Repr, DecidableEq

/-- `types.rs` `ViewType`: which of the four browse screens is active. -/
inductive ViewType where
  | artists
  | albums
  | songs
  | search
deriving Repr, DecidableEq

/-- `types.rs` `PlaybackSource`: provenance of the currently playing track. -/
inductive PlaybackSource where
  | queue
  | album (album_songs : List Song) (current_index : Nat)
  | search
  | other
deriving Repr, DecidableEq

/-- True exactly on the `Album` variant of `PlaybackSource`. -/
def PlaybackSource.isAlbum : PlaybackSource → Bool
  | .album _ _ => true
  | _ => false

/-- `mpris.rs` `PlaybackStatus`. -/
inductive PlaybackStatus where
  | playing
  | paused
  | stopped
deriving Repr, DecidableEq

/-- `mpris.rs` `Song`: the bus-visible now-playing metadata record. -/
structure MprisSong where
  id : String
  title : String
  artist : Option String
  album : Option String
  duration : Option Int
deriving Repr, DecidableEq

/-- Observable state of the rodio sink held by `audio.rs` `AudioPlayer`:
volume, paused flag, and whether the queue of sources is empty
(`Sink::empty`, reported by `is_finished`). Volume is modelled over `ℚ`
in place of `f64`; all volumes written by this program are exact. -/
structure SinkState where
  volume : ℚ
  paused : Bool
  finished : Bool
deriving Repr, DecidableEq

/-- The session state: the fields of `tui.rs` `App` that the core logic
touches, together with the bus-visible MPRIS metadata/status and the sink
state. `selected` is `list_state.selected()`. -/
structure State where
  current_view : ViewType
  artists : List Artist
  albums : List Album
  songs : List Song
  search_results : List SearchResultItem
  selected : Option Nat
  current_artist_id : Option String
  current_album_id : Option String
  queue : List Song
  status_message : Option String
  status_message_timeout : Option Nat
  current_base_content : String
  current_playback_source : Option PlaybackSource
  mpris_song : Option MprisSong
  playback_status : PlaybackStatus
  sink : SinkState
deriving Repr, DecidableEq

/-- Placeholder track used as the default of checked list lookups; every
use below is guarded by an in-bounds hypothesis on the claim. -/
def defaultSong : Song :=
  { id := "", title := "", album_id := none, artist := none, album := none,
    duration := none }

/-- The MPRIS metadata record `play_song` builds from a `Song`
(`main.rs` lines 220-229). -/
def song_to_mpris (song : Song) : MprisSong :=
  { id := song.id, title := song.title, artist := song.artist,
    album := song.album, duration := song.duration }

/-- Outcome of one fallible play attempt inside `play_song`: the stream
fetch, the HTTP status check, the body read, or the decode inside
`AudioPlayer::play_bytes` may fail. -/
inductive PlayOutcome where
  | ok
  | fetchErr
  | httpErr
  | readErr
  | decodeErr
deriving Repr, DecidableEq

/-- Whether the attempt succeeded. -/
def PlayOutcome.isOk : PlayOutcome → Bool
  | .ok => true
  | _ => false

/-- The error text attached at the failing call site in `play_song` /
`play_bytes` (the `anyhow` context strings). -/
def PlayOutcome.message : PlayOutcome → String
  | .ok => ""
  | .fetchErr => "Failed to fetch audio stream"
  | .httpErr => "Server returned error"
  | .readErr => "Failed to read audio data"
  | .decodeErr => "Failed to play audio"

/-- `tui.rs` `App::show_message`: set the transient status message and its
timeout. It does not read or reset any clock. -/
def show_message (s : State) (msg : String) (timeout : Nat) : State :=
  { s with status_message := some msg, status_message_timeout := some timeout }

/-- `tui.rs` `App::clear_message`. -/
def clear_message (s : State) : State :=
  { s with status_message := none, status_message_timeout := none }

/-- `audio.rs` `AudioPlayer::play_bytes`: stop and clear the sink, reset
its volume to 1.0, then decode; on success append the source and play, on
decode failure return an error with the sink left stopped. (`Sink::stop`
and `Sink::clear` empty the queue; `clear` leaves the sink paused,
`play` un-pauses it.) -/
def play_bytes (_sk : SinkState) (decodeOk : Bool) : SinkState :=
  let cleared : SinkState := { volume := 1, paused := true, finished := true }
  if decodeOk then { cleared with paused := false, finished := false }
  else cleared

/-- `main.rs` `play_song`: show the "Playing: ..." message, fetch the
stream, check the HTTP status, read the body, hand the bytes to
`play_bytes`, and only after all of that succeeded update the bus
metadata, set the status to Playing, and install the new
`PlaybackSource`. Returns the updated state and whether it succeeded;
on failure the error propagates to the caller (`?`). -/
def play_song (s : State) (song : Song) (source : PlaybackSource)
    (o : PlayOutcome) : State × Bool :=
  let s1 := show_message s ("Playing: " ++ song.title) 2000
  match o with
  | .ok =>
    let s2 := { s1 with sink := play_bytes s1.sink true }
    ({ s2 with
        mpris_song := some (song_to_mpris song),
        playback_status := PlaybackStatus.playing,
        current_playback_source := some source }, true)
  | .fetchErr => (s1, false)
  | .httpErr => (s1, false)
  | .readErr => (s1, false)
  | .decodeErr => ({ s1 with sink := play_bytes s1.sink false }, false)

/-- `main.rs` `play_next_in_queue`: if the queue is non-empty, remove its
head and play it with source `Queue`; otherwise clear the bus metadata and
report Stopped. The head is removed before the play attempt. -/
def play_next_in_queue (s : State) (o : PlayOutcome) : State × Bool :=
  match s.queue with
  | song :: rest =>
    play_song { s with queue := rest } song PlaybackSource.queue o
  | [] =>
    ({ s with mpris_song := none,
              playback_status := PlaybackStatus.stopped }, true)

/-- `main.rs` `play_next_in_album`: advance to index `current_index + 1`
of the album list if in bounds, else clear the playback source, clear the
bus metadata and report Stopped. -/
def play_next_in_album (s : State) (album_songs : List Song)
    (current_index : Nat) (o : PlayOutcome) : State × Bool :=
  let next_index := current_index + 1
  if next_index < album_songs.length then
    play_song s (album_songs.getD next_index defaultSong)
      (PlaybackSource.album album_songs next_index) o
  else
    ({ s with current_playback_source := none,
              mpris_song := none,
              playback_status := PlaybackStatus.stopped }, true)

/-- `main.rs` `play_previous_in_album`: play index `current_index - 1` if
`current_index > 0`, else restart index `current_index` (which is 0). -/
def play_previous_in_album (s : State) (album_songs : List Song)
    (current_index : Nat) (o : PlayOutcome) : State × Bool :=
  if 0 < current_index then
    play_song s (album_songs.getD (current_index - 1) defaultSong)
      (PlaybackSource.album album_songs (current_index - 1)) o
  else
    play_song s (album_songs.getD current_index defaultSong)
      (PlaybackSource.album album_songs current_index) o

/-- `main.rs` main loop, `MprisCommand::Next` handler (lines 410-424):
queue first; otherwise `take()` the playback source and dispatch on it;
with no source, do nothing. Errors of the play attempt are discarded
(`let _ = ...`). -/
def mpris_next (s : State) (o : PlayOutcome) : State :=
  match s.queue with
  | _ :: _ => (play_next_in_queue s o).1
  | [] =>
    match s.current_playback_source with
    | some src =>
      let s1 := { s with current_playback_source := none }
      match src with
      | PlaybackSource.album list i => (play_next_in_album s1 list i o).1
      | _ => { s1 with playback_status := PlaybackStatus.stopped }
    | none => s

/-- `main.rs` main loop, `MprisCommand::Previous` handler (lines 425-449):
`take()` the playback source; for an album source step back, for any
other source replay the track in the bus metadata if one is known
(passing the taken source back to `play_song`), else do nothing further.
Errors of the play attempt are discarded. -/
def mpris_previous (s : State) (o : PlayOutcome) : State :=
  match s.current_playback_source with
  | some src =>
    let s1 := { s with current_playback_source := none }
    match src with
    | PlaybackSource.album list i => (play_previous_in_album s1 list i o).1
    | _ =>
      match s.mpris_song with
      | some cs =>
        (play_song s1
          { id := cs.id, title := cs.title, album_id := none,
            artist := cs.artist, album := cs.album, duration := cs.duration }
          src o).1
      | none => s1
  | none => s

/-- `main.rs` main loop, track-finished reaction (body of the check at
lines 460-482, after the guards): queue first; otherwise dispatch on the
taken playback source; with no source, report Stopped. -/
def track_finished (s : State) (o : PlayOutcome) : State :=
  match s.queue with
  | _ :: _ => (play_next_in_queue s o).1
  | [] =>
    match s.current_playback_source with
    | some src =>
      let s1 := { s with current_playback_source := none }
      match src with
      | PlaybackSource.album list i => (play_next_in_album s1 list i o).1
      | _ => { s1 with playback_status := PlaybackStatus.stopped }
    | none => { s with playback_status := PlaybackStatus.stopped }

/-- The guarded track-finished check: the reaction runs only when the sink
is not paused, the sink is finished, and the reported status is Playing. -/
def track_finish_step (s : State) (o : PlayOutcome) : State :=
  if s.sink.paused = false ∧ s.sink.finished = true ∧
      s.playback_status = PlaybackStatus.playing then
    track_finished s o
  else s

/-- `main.rs` main loop, `Action::PlayNext` handler (keyboard `n`):
`play_next_in_queue`, showing any error as a 3000 ms status message. -/
def action_play_next (s : State) (o : PlayOutcome) : State :=
  let r := play_next_in_queue s o
  if r.2 then r.1 else show_message r.1 ("Error: " ++ o.message) 3000

/-- `main.rs` main loop, `MprisCommand::SetVolume` handler: clamp the
requested volume to [0, 1] and apply it to the sink. -/
def mpris_set_volume (s : State) (v : ℚ) : State :=
  let v1 := min (max v 0) 1
  { s with sink := { s.sink with volume := v1 } }

/-- The data a `Select` action may consume from the external API client
(spec section 6 contracts): the `get_artist` response as
(artist name, album list), the `get_album` response as
(album name, constructed track list), the outcome of a play attempt, and
the random easter-egg suffixes of the view titles. An `Except.error`
models a failed load, whose text is surfaced by the caller. -/
structure SelectEnv where
  albumsResp : Except String (String × List Album)
  songsResp : Except String (String × List Song)
  playOutcome : PlayOutcome
  eggA : String
  eggS : String
deriving Repr

/-- `tui.rs` `App::set_items` effect on the selection cursor: reset, then
select index 0 when the new list is non-empty. -/
def reset_selection (count : Nat) : Option Nat :=
  if count = 0 then none else some 0

/-- `main.rs` `load_albums` combined with the error handling of its
caller: on success replace the albums list, reset the cursor and set the
view title; on failure (the `?` having propagated to the `Action::Select`
arm) show the error message for 3000 ms, with the already-performed
mutations of `handle_select` kept. -/
def load_albums (s : State) (resp : Except String (String × List Album))
    (egg : String) : State :=
  match resp with
  | .ok (name, albums) =>
    { s with albums := albums,
             selected := reset_selection albums.length,
             current_base_content := "Albums for " ++ name ++ egg }
  | .error e => show_message s ("Error: " ++ e) 3000

/-- `main.rs` `load_songs` combined with the error handling of its
caller, analogous to `load_albums`. -/
def load_songs (s : State) (resp : Except String (String × List Song))
    (egg : String) : State :=
  match resp with
  | .ok (name, songs) =>
    { s with songs := songs,
             selected := reset_selection songs.length,
             current_base_content := "Songs in " ++ name ++ egg }
  | .error e => show_message s ("Error: " ++ e) 3000

/-- `main.rs` `handle_select` (with the `Action::Select` error-message
wrapper folded into the load/play steps): dispatch on the current view,
look the cursor up in the backing list of that view with a checked `get`,
drill down / play accordingly. A `None` cursor or a failed lookup leaves
the state untouched. -/
def handle_select (s : State) (env : SelectEnv) : State :=
  match s.selected with
  | none => s
  | some idx =>
    match s.current_view with
    | ViewType.artists =>
      match s.artists.get? idx with
      | some artist =>
        let s1 := { s with current_artist_id := some artist.id,
                           current_view := ViewType.albums }
        load_albums s1 env.albumsResp env.eggA
      | none => s
    | ViewType.albums =>
      match s.albums.get? idx with
      | some album =>
        let s1 := { s with current_album_id := some album.id,
                           current_view := ViewType.songs }
        load_songs s1 env.songsResp env.eggS
      | none => s
    | ViewType.songs =>
      match s.songs.get? idx with
      | some song =>
        (play_song s song (PlaybackSource.album s.songs idx)
          env.playOutcome).1
      | none => s
    | ViewType.search =>
      match s.search_results.get? idx with
      | some (SearchResultItem.albumHit id _name _artist artistId) =>
        let s1 := { s with current_artist_id := some artistId,
                           current_album_id := some id,
                           current_view := ViewType.songs }
        load_songs s1 env.songsResp env.eggS
      | some (SearchResultItem.songHit id title artist albumId _album _dur) =>
        (play_song s
          { id := id, title := title, album_id := some albumId,
            artist := some artist, album := none, duration := none }
          PlaybackSource.search env.playOutcome).1
      | none => s

/-- `tui.rs` `handle_key`, back branch (`q`/`Esc` on a non-Artists view,
identically `Left`/`h`): Albums goes to Artists clearing the artist id,
Songs goes to Albums clearing the album id, Search goes to Artists
discarding the results. On the Artists view `q`/`Esc` quits instead;
modelled as the identity here. -/
def go_back (s : State) : State :=
  match s.current_view with
  | ViewType.albums =>
    { s with current_view := ViewType.artists,
             current_artist_id := none,
             current_base_content := "Artists" }
  | ViewType.songs =>
    { s with current_view := ViewType.albums,
             current_album_id := none }
  | ViewType.search =>
    { s with current_view := ViewType.artists,
             search_results := [],
             current_base_content := "Artists" }
  | ViewType.artists => s

/-- `main.rs` main loop, `Action::AddToQueue` handler: in the Songs or
Search view, look the cursor up with a checked `get`, append the song to
the queue tail and show a confirmation message; any failed lookup, album
hit, or other view is a no-op. -/
def add_to_queue (s : State) : State :=
  match s.selected with
  | none => s
  | some idx =>
    match s.current_view with
    | ViewType.songs =>
      match s.songs.get? idx with
      | some song =>
        let q := s.queue ++ [song]
        show_message { s with queue := q }
          ("Added to queue: " ++ song.title ++ " (Queue: " ++
            toString q.length ++ ")") 1500
      | none => s
    | ViewType.search =>
      match s.search_results.get? idx with
      | some (SearchResultItem.songHit id title artist albumId _album _dur) =>
        let q := s.queue ++
          [{ id := id, title := title, album_id := some albumId,
             artist := some artist, album := none, duration := none }]
        show_message { s with queue := q }
          ("Added to queue: " ++ title ++ " (Queue: " ++
            toString q.length ++ ")") 1500
      | some (SearchResultItem.albumHit _ _ _ _) => s
      | none => s
    | _ => s

/-- Length of the backing list of the active view, the list that
`handle_select` and `add_to_queue` index into. -/
def active_len (s : State) : Nat :=
  match s.current_view with
  | ViewType.artists => s.artists.length
  | ViewType.albums => s.albums.length
  | ViewType.songs => s.songs.length
  | ViewType.search => s.search_results.length

/-!
The status-message clock: the main loop keeps a local `last_message_check`
instant and, once per tick, clears the message when the elapsed time since
that instant reaches the stored timeout (`main.rs` lines 366-379).
`show_message` itself never touches the instant.
-/

/-- The message-visible part of the session together with the loop-local
`last_message_check` instant, in milliseconds on a discrete clock. -/
structure MsgView where
  message : Option String
  timeout : Option Nat
  lastCheck : Nat
deriving Repr, DecidableEq

/-- `App::show_message` at this level: sets message and timeout, does not
touch `lastCheck`. -/
def msg_show (m : MsgView) (msg : String) (timeout : Nat) : MsgView :=
  { m with message := some msg, timeout := some timeout }

/-- One per-tick timeout check of the main loop at instant `now`: with a
timeout stored, clear the message and reset `lastCheck` once
`now - lastCheck` has reached it; with no message, reset `lastCheck`. -/
def msg_tick (m : MsgView) (now : Nat) : MsgView :=
  match m.timeout with
  | some t =>
    if t ≤ now - m.lastCheck then
      { message := none, timeout := none, lastCheck := now }
    else m
  | none => { m with lastCheck := now }

/-- A timestamped event of the message subsystem: a per-tick check at a
given instant, or a `show_message` call made at a given instant. The
instant of a `set` event is deliberately ignored by the transition,
because `show_message` reads no clock. -/
inductive MsgEvent where
  | tick (now : Nat)
  | set (now : Nat) (msg : String) (timeout : Nat)
deriving Repr, DecidableEq

/-- Run a sequence of message events. -/
def msg_run (m : MsgView) : List MsgEvent → MsgView
  | [] => m
  | MsgEvent.tick now :: es => msg_run (msg_tick m now) es
  | MsgEvent.set _ msg t :: es => msg_run (msg_show m msg t) es

/-! Concrete sample data used by witnesses and counterexamples. -/

/-- A sample track. -/
def exSongA : Song :=
  { id := "a", title := "Track A", album_id := none, artist := none,
    album := none, duration := none }

/-- Another sample track. -/
def exSongB : Song :=
  { id := "b", title := "Track B", album_id := none, artist := none,
    album := none, duration := none }

/-- A baseline session state: fresh Artists view, nothing playing, sink
empty. -/
def exBase : State :=
  { current_view := ViewType.artists, artists := [], albums := [],
    songs := [], search_results := [], selected := some 0,
    current_artist_id := none, current_album_id := none, queue := [],
    status_message := none, status_message_timeout := none,
    current_base_content := "Artists", current_playback_source := none,
    mpris_song := none, playback_status := PlaybackStatus.stopped,
    sink := { volume := 1, paused := false, finished := true } }

/-- A sample album. -/
def exAlbum : Album :=
  { id := "al1", name := "Album1", artist_id := some "ar1" }

/-- A sample environment for `handle_select` whose loads succeed. -/
def exEnv : SelectEnv :=
  { albumsResp := Except.ok ("Artist1", [exAlbum]),
    songsResp := Except.ok ("Album1", [exSongA]),
    playOutcome := PlayOutcome.ok, eggA := "", eggS := "" }

/-- A sample artist. -/
def exArtist : Artist := { id := "ar1", name := "Artist1" }

/-- A state with a two-track queue and an album playback source. -/
def exQueued : State :=
  { exBase with
      queue := [exSongA, exSongB],
      current_playback_source := some (PlaybackSource.album [exSongB] 0) }

/-- A state with an empty queue, playing index 0 of a two-track album. -/
def exAlbumPlay : State :=
  { exBase with
      current_playback_source
        := some (PlaybackSource.album [exSongA, exSongB] 0) }

/-- A state with an empty queue, playing index 1 of a two-track album. -/
def exAlbumPlay1 : State :=
  { exBase with
      current_playback_source
        := some (PlaybackSource.album [exSongA, exSongB] 1) }

/-- A state with a one-track queue and nothing else special. -/
def exOneQueued : State := { exBase with queue := [exSongA] }

/-- A state in which the sink reports finished and not paused while the
reported status is Playing, with empty queue and no playback source. -/
def exFinished : State :=
  { exBase with playback_status := PlaybackStatus.playing,
                sink := { volume := 1, paused := false, finished := true } }

/-- A state with a non-album playback source and no bus-visible current
song. -/
def exSearchSource : State :=
  { exBase with current_playback_source := some PlaybackSource.search,
                mpris_song := none }

/-- A fresh Artists view over a one-artist library, cursor on index 0. -/
def exLibrary : State := { exBase with artists := [exArtist] }

/-- A Songs view with a one-track list but a stale cursor at index 5. -/
def exStaleCursor : State :=
  { exBase with current_view := ViewType.songs, songs := [exSongA],
                selected := some 5 }

/-! Helper lemmas about the failing branches of `play_song`. -/

/-- A failing play attempt never reaches the `PlaybackSource`
assignment at the end of `play_song`. -/
lemma play_song_fail_source (s : State) (song : Song)
    (src : PlaybackSource) (o : PlayOutcome) (h : o.isOk = false) :
    (play_song s song src o).1.current_playback_source
      = s.current_playback_source := by
  cases o <;> simp_all [play_song, show_message, PlayOutcome.isOk]

/-- `play_song` never touches the queue, whatever the outcome. -/
lemma play_song_queue (s : State) (song : Song)
    (src : PlaybackSource) (o : PlayOutcome) :
    (play_song s song src o).1.queue = s.queue := by
  cases o <;> simp [play_song, show_message]

/-- The success flag returned by `play_song` is exactly the outcome flag. -/
lemma play_song_snd (s : State) (song : Song)
    (src : PlaybackSource) (o : PlayOutcome) :
    (play_song s song src o).2 = o.isOk := by
  cases o <;> rfl

/-- With the playback source already cleared, a failing
`play_next_in_album` leaves it cleared. -/
lemma play_next_in_album_keep_none (s : State) (list : List Song) (i : Nat)
    (o : PlayOutcome) (hsrc : s.current_playback_source = none)
    (h : o.isOk = false) :
    (play_next_in_album s list i o).1.current_playback_source = none := by
  by_cases hc : i + 1 < list.length
  · simp only [play_next_in_album, hc, if_true]
    rw [play_song_fail_source _ _ _ _ h, hsrc]
  · simp [play_next_in_album, hc]

/-- With the playback source already cleared, a failing
`play_previous_in_album` leaves it cleared. -/
lemma play_previous_in_album_keep_none (s : State) (list : List Song)
    (i : Nat) (o : PlayOutcome) (hsrc : s.current_playback_source = none)
    (h : o.isOk = false) :
    (play_previous_in_album s list i o).1.current_playback_source
      = none := by
  unfold play_previous_in_album
  split <;> rw [play_song_fail_source _ _ _ _ h, hsrc]

/-- C2: in every state with a non-empty queue, the `Next` command (on a
successful play) removes the queue head, plays it (bus metadata and
status updated), sets the playback source to `FromQueue` regardless of
the previous source, and keeps the rest of the queue in FIFO order. -/
theorem c2_next_queue_priority (s : State) (song : Song) (rest : List Song)
    (h : s.queue = song :: rest) :
    (mpris_next s PlayOutcome.ok).queue = rest ∧
    (mpris_next s PlayOutcome.ok).current_playback_source
        = some PlaybackSource.queue ∧
    (mpris_next s PlayOutcome.ok).mpris_song = some (song_to_mpris song) ∧
    (mpris_next s PlayOutcome.ok).playback_status
        = PlaybackStatus.playing := by
  simp [mpris_next, h, play_next_in_queue, play_song, show_message]

/-- Witness for C2 at a concrete state with queue `[A, B]` and an album
playback source. -/
theorem c2_next_queue_priority_witness :
    (mpris_next exQueued PlayOutcome.ok).queue = [exSongB] ∧
    (mpris_next exQueued PlayOutcome.ok).current_playback_source
        = some PlaybackSource.queue ∧
    (mpris_next exQueued PlayOutcome.ok).mpris_song
        = some (song_to_mpris exSongA) ∧
    (mpris_next exQueued PlayOutcome.ok).playback_status
        = PlaybackStatus.playing :=
  c2_next_queue_priority exQueued exSongA [exSongB] rfl

/-- C3: in every state with an empty queue and playback source
`FromAlbumContext(list, i)`, the `Next` command (on a successful play)
plays `list[i+1]` with the source advanced to index `i+1` when `i+1` is
in bounds, and otherwise clears the playback source, clears the bus
metadata and reports Stopped. -/
theorem c3_next_album_advance (s : State) (list : List Song) (i : Nat)
    (hq : s.queue = [])
    (hs : s.current_playback_source = some (PlaybackSource.album list i)) :
    (i + 1 < list.length →
      (mpris_next s PlayOutcome.ok).mpris_song
          = some (song_to_mpris (list.getD (i + 1) defaultSong)) ∧
      (mpris_next s PlayOutcome.ok).current_playback_source
          = some (PlaybackSource.album list (i + 1)) ∧
      (mpris_next s PlayOutcome.ok).playback_status
          = PlaybackStatus.playing) ∧
    (list.length ≤ i + 1 →
      (mpris_next s PlayOutcome.ok).current_playback_source = none ∧
      (mpris_next s PlayOutcome.ok).mpris_song = none ∧
      (mpris_next s PlayOutcome.ok).playback_status
          = PlaybackStatus.stopped) := by
  constructor
  · intro hlt
    simp [mpris_next, hq, hs, play_next_in_album, hlt, play_song,
      show_message]
  · intro hge
    have hnlt : ¬ (i + 1 < list.length) := not_lt.mpr hge
    simp [mpris_next, hq, hs, play_next_in_album, hnlt]

/-- Witness for C3: advancing from index 0 of a two-track album. -/
theorem c3_next_album_advance_witness :
    (mpris_next exAlbumPlay PlayOutcome.ok).mpris_song
        = some (song_to_mpris ([exSongA, exSongB].getD 1 defaultSong)) ∧
    (mpris_next exAlbumPlay PlayOutcome.ok).current_playback_source
        = some (PlaybackSource.album [exSongA, exSongB] 1) ∧
    (mpris_next exAlbumPlay PlayOutcome.ok).playback_status
        = PlaybackStatus.playing :=
  (c3_next_album_advance exAlbumPlay [exSongA, exSongB] 0 rfl rfl).1
    (by decide)

/-- C1 counterexample: a failing play attempt does alter Queue and
PlaybackSource state. With queue `[A]`, a failed `play_next_in_queue`
leaves the queue empty (the dequeued head is lost), and with an empty
queue and an album source, a failed `Next` leaves the playback source
cleared (it was taken before the attempt). -/
theorem c1_counterexample :
    (play_next_in_queue exOneQueued PlayOutcome.fetchErr).1.queue
        ≠ exOneQueued.queue ∧
    (mpris_next exAlbumPlay PlayOutcome.fetchErr).current_playback_source
        ≠ exAlbumPlay.current_playback_source := by
  decide

/-- C1 (amended): a failing play attempt never installs the new
`PlaybackSource` (the assignment in `play_song` runs only after success)
and never touches the queue inside `play_song`; the failure surfaces as a
status message in the keyboard play-next path. However, the callers
mutate state before the attempt: `play_next_in_queue` has already removed
the queue head, which is lost on failure, and the `Next` / `Previous`
handlers have already taken the playback source, which stays cleared on
failure. -/
theorem c1_failure_effects (s : State) (song : Song)
    (src : PlaybackSource) (o : PlayOutcome) (h : o.isOk = false) :
    ((play_song s song src o).1.current_playback_source
        = s.current_playback_source ∧
     (play_song s song src o).1.queue = s.queue) ∧
    (∀ t rest, s.queue = t :: rest →
      (play_next_in_queue s o).1.queue = rest) ∧
    (∀ list i, s.queue = [] →
      s.current_playback_source = some (PlaybackSource.album list i) →
      i + 1 < list.length →
      (mpris_next s o).current_playback_source = none) ∧
    (∀ src2, s.current_playback_source = some src2 →
      (mpris_previous s o).current_playback_source = none) ∧
    (s.queue ≠ [] →
      (action_play_next s o).status_message
        = some ("Error: " ++ o.message)) := by
  refine ⟨⟨play_song_fail_source s song src o h, play_song_queue s song src o⟩,
    ?_, ?_, ?_, ?_⟩
  · intro t rest hq
    rw [show (play_next_in_queue s o)
        = play_song { s with queue := rest } t PlaybackSource.queue o by
      simp [play_next_in_queue, hq]]
    rw [play_song_queue]
  · intro list i hq hs _hlt
    simp only [mpris_next, hq, hs]
    exact play_next_in_album_keep_none _ list i o rfl h
  · intro src2 hs
    cases src2 with
    | album list i =>
      simp only [mpris_previous, hs]
      exact play_previous_in_album_keep_none _ list i o rfl h
    | queue =>
      cases hms : s.mpris_song <;>
        simp [mpris_previous, hs, hms, play_song_fail_source _ _ _ _ h]
    | search =>
      cases hms : s.mpris_song <;>
        simp [mpris_previous, hs, hms, play_song_fail_source _ _ _ _ h]
    | other =>
      cases hms : s.mpris_song <;>
        simp [mpris_previous, hs, hms, play_song_fail_source _ _ _ _ h]
  · intro hq
    match hq2 : s.queue with
    | [] => exact absurd hq2 hq
    | t :: rest =>
      have hr : play_next_in_queue s o
          = play_song { s with queue := rest } t PlaybackSource.queue o := by
        simp [play_next_in_queue, hq2]
      have hflag : (play_next_in_queue s o).2 = false := by
        rw [hr, play_song_snd, h]
      simp [action_play_next, hflag, show_message]

/-- Witness for C1 (amended): with queue `[A]` and a failed fetch, the
head is removed and the play-next action reports the fetch error. -/
theorem c1_failure_effects_witness :
    (play_next_in_queue exOneQueued PlayOutcome.fetchErr).1.queue = [] ∧
    (action_play_next exOneQueued PlayOutcome.fetchErr).status_message
        = some ("Error: " ++ PlayOutcome.fetchErr.message) :=
  ⟨(c1_failure_effects exOneQueued exSongB PlaybackSource.search
      PlayOutcome.fetchErr rfl).2.1 exSongA [] rfl,
   (c1_failure_effects exOneQueued exSongB PlaybackSource.search
      PlayOutcome.fetchErr rfl).2.2.2.2 (by decide)⟩

/-- C4 counterexample: with an empty queue and no playback source, the
track-finish reaction reports Stopped while the `Next` command leaves the
state (still reporting Playing) untouched, so the two handlers are not
equivalent in the no-source case. -/
theorem c4_counterexample :
    exFinished.sink.finished = true ∧ exFinished.sink.paused = false ∧
    exFinished.playback_status = PlaybackStatus.playing ∧
    exFinished.queue = [] ∧ exFinished.current_playback_source = none ∧
    track_finish_step exFinished PlayOutcome.ok
      ≠ mpris_next exFinished PlayOutcome.ok := by
  decide

/-- C4 (amended): under the finish-event guards, the track-finish
reaction coincides with the `Next` handler whenever the queue is
non-empty or a playback source is present; with both absent, track-finish
reports Stopped while `Next` leaves the state unchanged. -/
theorem c4_finish_vs_next (s : State) (o : PlayOutcome)
    (hp : s.sink.paused = false) (hf : s.sink.finished = true)
    (hst : s.playback_status = PlaybackStatus.playing) :
    (s.queue ≠ [] ∨ s.current_playback_source ≠ none →
      track_finish_step s o = mpris_next s o) ∧
    (s.queue = [] → s.current_playback_source = none →
      track_finish_step s o
          = { s with playback_status := PlaybackStatus.stopped } ∧
      mpris_next s o = s) := by
  have hstep : track_finish_step s o = track_finished s o := by
    simp [track_finish_step, hp, hf, hst]
  constructor
  · intro hor
    rw [hstep]
    cases hq : s.queue with
    | cons t rest => simp [track_finished, mpris_next, hq]
    | nil =>
      cases hsrc : s.current_playback_source with
      | some src => simp [track_finished, mpris_next, hq, hsrc]
      | none =>
        rcases hor with h1 | h2
        · exact absurd hq h1
        · exact absurd hsrc h2
  · intro hq hsrc
    rw [hstep]
    exact ⟨by simp [track_finished, hq, hsrc],
           by simp [mpris_next, hq, hsrc]⟩

/-- Witness for C4 (amended) at a state with a non-empty queue. -/
theorem c4_finish_vs_next_witness :
    track_finish_step { exFinished with queue := [exSongA] } PlayOutcome.ok
      = mpris_next { exFinished with queue := [exSongA] } PlayOutcome.ok :=
  (c4_finish_vs_next { exFinished with queue := [exSongA] }
    PlayOutcome.ok rfl rfl rfl).1 (Or.inl (by decide))

/-- C5: with playback source `FromAlbumContext(list, i)` and a valid
index, the `Previous` command (on a successful play) plays `list[i-1]`
with the source moved to `i-1` when `i > 0`, and replays `list[0]`
keeping index 0 when `i = 0` — no wraparound and no index underflow. -/
theorem c5_previous_album (s : State) (list : List Song) (i : Nat)
    (hs : s.current_playback_source = some (PlaybackSource.album list i))
    (_hlen : i < list.length) :
    (0 < i →
      (mpris_previous s PlayOutcome.ok).mpris_song
          = some (song_to_mpris (list.getD (i - 1) defaultSong)) ∧
      (mpris_previous s PlayOutcome.ok).current_playback_source
          = some (PlaybackSource.album list (i - 1)) ∧
      (mpris_previous s PlayOutcome.ok).playback_status
          = PlaybackStatus.playing) ∧
    (i = 0 →
      (mpris_previous s PlayOutcome.ok).mpris_song
          = some (song_to_mpris (list.getD 0 defaultSong)) ∧
      (mpris_previous s PlayOutcome.ok).current_playback_source
          = some (PlaybackSource.album list 0) ∧
      (mpris_previous s PlayOutcome.ok).playback_status
          = PlaybackStatus.playing) := by
  constructor
  · intro hi
    simp [mpris_previous, hs, play_previous_in_album, hi, play_song,
      show_message]
  · intro hi
    subst hi
    simp [mpris_previous, hs, play_previous_in_album, play_song,
      show_message]

/-- Witness for C5: `Previous` from index 1 of a two-track album plays
index 0. -/
theorem c5_previous_album_witness :
    (mpris_previous exAlbumPlay1 PlayOutcome.ok).mpris_song
        = some (song_to_mpris ([exSongA, exSongB].getD 0 defaultSong)) ∧
    (mpris_previous exAlbumPlay1 PlayOutcome.ok).current_playback_source
        = some (PlaybackSource.album [exSongA, exSongB] 0) ∧
    (mpris_previous exAlbumPlay1 PlayOutcome.ok).playback_status
        = PlaybackStatus.playing :=
  (c5_previous_album exAlbumPlay1 [exSongA, exSongB] 1 rfl (by decide)).1
    (by decide)

/-- C6 counterexample: with a Search playback source and no track in the
bus metadata, the `Previous` command is not a no-op — the playback source
was taken before the check and is left cleared. -/
theorem c6_counterexample :
    (mpris_previous exSearchSource PlayOutcome.ok).current_playback_source
        ≠ exSearchSource.current_playback_source ∧
    mpris_previous exSearchSource PlayOutcome.ok ≠ exSearchSource := by
  decide

/-- C6 (amended): with a playback source present but not an album
context, `Previous` replays the track reported in the bus metadata when
one is known (restoring the source on success); when none is known, no
play is attempted and the state is unchanged except that the playback
source, taken before the check, is left cleared. -/
theorem c6_previous_non_album (s : State) (src : PlaybackSource)
    (o : PlayOutcome)
    (hsrc : s.current_playback_source = some src)
    (hna : src.isAlbum = false) :
    (s.mpris_song = none →
      mpris_previous s o = { s with current_playback_source := none }) ∧
    (∀ cs, s.mpris_song = some cs → o = PlayOutcome.ok →
      (mpris_previous s o).mpris_song = some cs ∧
      (mpris_previous s o).current_playback_source = some src ∧
      (mpris_previous s o).playback_status = PlaybackStatus.playing) := by
  constructor
  · intro hms
    cases src <;>
      simp_all [mpris_previous, hsrc, hms, PlaybackSource.isAlbum]
  · intro cs hms ho
    subst ho
    cases src <;>
      simp_all [mpris_previous, hsrc, hms, PlaybackSource.isAlbum,
        play_song, show_message, song_to_mpris]

/-- Witness for C6 (amended): with no known track, `Previous` clears the
taken source and changes nothing else. -/
theorem c6_previous_non_album_witness :
    mpris_previous exSearchSource PlayOutcome.ok
      = { exSearchSource with current_playback_source := none } :=
  (c6_previous_non_album exSearchSource PlaybackSource.search
    PlayOutcome.ok rfl rfl).1 rfl

/-- C7: back-navigation is the inverse of drill-down. Starting from the
Artists view with both ids absent, selecting an artist (whose albums
load, non-empty) and then the first album (whose songs load) records the
artist id and then the album id; the first `Back` returns Songs to Albums
clearing exactly the album id, the second returns Albums to Artists
clearing exactly the artist id, so both ids are absent again. -/
theorem c7_back_inverts_drilldown (s : State) (env1 env2 : SelectEnv)
    (i : Nat) (artist : Artist) (aname : String) (a0 : Album)
    (arest : List Album) (sname : String) (songsList : List Song)
    (hview : s.current_view = ViewType.artists)
    (_hart : s.current_artist_id = none)
    (halb : s.current_album_id = none)
    (hsel : s.selected = some i)
    (hget : s.artists.get? i = some artist)
    (henv1 : env1.albumsResp = Except.ok (aname, a0 :: arest))
    (henv2 : env2.songsResp = Except.ok (sname, songsList)) :
    (handle_select s env1).current_view = ViewType.albums ∧
    (handle_select s env1).current_artist_id = some artist.id ∧
    (handle_select s env1).current_album_id = none ∧
    (handle_select (handle_select s env1) env2).current_view
        = ViewType.songs ∧
    (handle_select (handle_select s env1) env2).current_artist_id
        = some artist.id ∧
    (handle_select (handle_select s env1) env2).current_album_id
        = some a0.id ∧
    (go_back (handle_select (handle_select s env1) env2)).current_view
        = ViewType.albums ∧
    (go_back (handle_select (handle_select s env1) env2)).current_album_id
        = none ∧
    (go_back (handle_select (handle_select s env1) env2)).current_artist_id
        = some artist.id ∧
    (go_back (go_back (handle_select (handle_select s env1)
        env2))).current_view = ViewType.artists ∧
    (go_back (go_back (handle_select (handle_select s env1)
        env2))).current_artist_id = none ∧
    (go_back (go_back (handle_select (handle_select s env1)
        env2))).current_album_id = none := by
  have hget2 : s.artists[i]? = some artist := by simpa using hget
  have h1 : handle_select s env1
      = { s with current_artist_id := some artist.id,
                 current_album_id := none,
                 current_view := ViewType.albums,
                 albums := a0 :: arest,
                 selected := some 0,
                 current_base_content
                   := "Albums for " ++ aname ++ env1.eggA } := by
    simp [handle_select, hsel, hview, hget2, henv1, load_albums,
      reset_selection, halb]
  have h2 : handle_select
      { s with current_artist_id := some artist.id,
               current_album_id := none,
               current_view := ViewType.albums,
               albums := a0 :: arest,
               selected := some 0,
               current_base_content
                 := "Albums for " ++ aname ++ env1.eggA } env2
      = { s with current_artist_id := some artist.id,
                 current_album_id := some a0.id,
                 current_view := ViewType.songs,
                 albums := a0 :: arest,
                 songs := songsList,
                 selected := reset_selection songsList.length,
                 current_base_content
                   := "Songs in " ++ sname ++ env2.eggS } := by
    simp [handle_select, henv2, load_songs, reset_selection]
  simp [h1, h2, go_back]

/-- Witness for C7 at a concrete one-artist, one-album, one-song
library. -/
theorem c7_back_inverts_drilldown_witness :
    (handle_select exLibrary exEnv).current_view = ViewType.albums ∧
    (handle_select exLibrary exEnv).current_artist_id = some exArtist.id ∧
    (handle_select exLibrary exEnv).current_album_id = none ∧
    (handle_select (handle_select exLibrary exEnv) exEnv).current_view
        = ViewType.songs ∧
    (handle_select (handle_select exLibrary exEnv) exEnv).current_artist_id
        = some exArtist.id ∧
    (handle_select (handle_select exLibrary exEnv) exEnv).current_album_id
        = some exAlbum.id ∧
    (go_back (handle_select (handle_select exLibrary exEnv)
        exEnv)).current_view = ViewType.albums ∧
    (go_back (handle_select (handle_select exLibrary exEnv)
        exEnv)).current_album_id = none ∧
    (go_back (handle_select (handle_select exLibrary exEnv)
        exEnv)).current_artist_id = some exArtist.id ∧
    (go_back (go_back (handle_select (handle_select exLibrary exEnv)
        exEnv))).current_view = ViewType.artists ∧
    (go_back (go_back (handle_select (handle_select exLibrary exEnv)
        exEnv))).current_artist_id = none ∧
    (go_back (go_back (handle_select (handle_select exLibrary exEnv)
        exEnv))).current_album_id = none :=
  c7_back_inverts_drilldown exLibrary exEnv exEnv 0 exArtist
    "Artist1" exAlbum [] "Album1" [exSongA]
    rfl rfl rfl rfl rfl rfl rfl

/-- C8 counterexample: the expiry deadline is measured from the loop
baseline, not from when the message was set. After a tick at 0, message A
is set with timeout 2000, and at instant 1500 message B replaces it, also
with timeout 2000; the tick at instant 2000 already clears B even though
only 500 ms have elapsed since B was set — B does not get its full
timeout. -/
theorem c8_counterexample :
    (msg_run { message := none, timeout := none, lastCheck := 0 }
        [MsgEvent.tick 0, MsgEvent.set 0 ("A") 2000,
         MsgEvent.set 1500 ("B") 2000, MsgEvent.tick 2000]).message
      = none ∧ 2000 - 1500 < 2000 := by
  decide

/-- C8 (amended): a status message set with timeout T is visible
immediately; the per-tick expiry check measures elapsed time from the
loop baseline `lastCheck` (the last tick at which no message was present,
or the last clearing) rather than from the set time, clearing the message
at the first tick at least T ms past that baseline. A message set right
after a no-message tick therefore expires T ms after being set, but a
message replacing a still-visible one inherits the old baseline and can
be cleared before its own T has elapsed. -/
theorem c8_message_expiry (sm : Option String) (st : Option Nat)
    (b T now : Nat) (msg : String) :
    (msg_show { message := sm, timeout := st, lastCheck := b } msg T).message
        = some msg ∧
    (T ≤ now - b →
      (msg_tick (msg_show { message := sm, timeout := st, lastCheck := b }
        msg T) now).message = none) ∧
    (now - b < T →
      msg_tick (msg_show { message := sm, timeout := st, lastCheck := b }
        msg T) now
      = msg_show { message := sm, timeout := st, lastCheck := b } msg T) := by
  refine ⟨rfl, ?_, ?_⟩
  · intro h
    simp [msg_tick, msg_show, h]
  · intro h
    simp [msg_tick, msg_show, not_le.mpr h]

/-- Witness for C8 (amended): a message set at baseline 0 with timeout
1000 is gone at the tick at instant 1500. -/
theorem c8_message_expiry_witness :
    (msg_tick (msg_show { message := none, timeout := none, lastCheck := 0 }
      ("hi") 1000) 1500).message = none :=
  (c8_message_expiry none none 0 1000 1500 ("hi")).2.1 (by decide)

/-- C9: whenever the selection cursor is out of range for the backing
list of the active view (possible after back-navigation, which does not
reset the cursor), the Select and AddToQueue actions are safe no-ops:
every lookup is a checked `get` returning an Option, and the state is
unchanged when it fails. -/
theorem c9_out_of_range_noop (s : State) (env : SelectEnv)
    (h : ∀ i, s.selected = some i → active_len s ≤ i) :
    handle_select s env = s ∧ add_to_queue s = s := by
  cases hsel : s.selected with
  | none => simp [handle_select, add_to_queue, hsel]
  | some i =>
    have hlen := h i hsel
    cases hview : s.current_view with
    | artists =>
      simp only [active_len, hview] at hlen
      have hget : s.artists.get? i = none := List.get?_eq_none.mpr hlen
      have hget2 : s.artists[i]? = none := by simpa using hget
      simp [handle_select, add_to_queue, hsel, hview, hget2]
    | albums =>
      simp only [active_len, hview] at hlen
      have hget : s.albums.get? i = none := List.get?_eq_none.mpr hlen
      have hget2 : s.albums[i]? = none := by simpa using hget
      simp [handle_select, add_to_queue, hsel, hview, hget2]
    | songs =>
      simp only [active_len, hview] at hlen
      have hget : s.songs.get? i = none := List.get?_eq_none.mpr hlen
      have hget2 : s.songs[i]? = none := by simpa using hget
      simp [handle_select, add_to_queue, hsel, hview, hget2]
    | search =>
      simp only [active_len, hview] at hlen
      have hget : s.search_results.get? i = none := List.get?_eq_none.mpr hlen
      have hget2 : s.search_results[i]? = none := by simpa using hget
      simp [handle_select, add_to_queue, hsel, hview, hget2]

/-- Witness for C9: on a Songs view whose list has one track but whose
cursor is at index 5, Select and AddToQueue change nothing. -/
theorem c9_out_of_range_noop_witness :
    handle_select exStaleCursor exEnv = exStaleCursor ∧
    add_to_queue exStaleCursor = exStaleCursor :=
  c9_out_of_range_noop exStaleCursor exEnv
    (by intro i hi; simp [exStaleCursor, exBase, active_len] at hi ⊢; omega)

/-- C10: every successful track start resets the sink volume to 1 before
playback begins (`play_bytes` sets it unconditionally), so a volume
previously applied through `SetVolume` — which clamps its argument to
[0, 1] and applies it to the sink — is discarded at the next track
change. -/
theorem c10_volume_reset (s t : State) (v : ℚ) (song : Song)
    (src : PlaybackSource) (decodeOk : Bool) :
    (0 ≤ (mpris_set_volume s v).sink.volume ∧
      (mpris_set_volume s v).sink.volume ≤ 1) ∧
    (play_bytes t.sink decodeOk).volume = 1 ∧
    (play_song (mpris_set_volume s v) song src PlayOutcome.ok).1.sink.volume
        = 1 := by
  refine ⟨⟨?_, ?_⟩, ?_, ?_⟩
  · exact le_min (le_max_right v 0) zero_le_one
  · exact min_le_right _ _
  · cases decodeOk <;> rfl
  · rfl

end Danavi
